import Mathlib

/-!
Shallow embedding of `t.in.eoarchive.py` (mundialis/t.in.eo_archive).

The module imports an EO collection from an archive as a space-time raster
dataset (STRDS).  The Python source is embedded function by function:

* `checkStartEnd`       — `check_start_end` (date validation)
* `freeRAM_MB`          — `freeRAM` (available memory probe)
* `testNprocsMemory`    — `test_nprocs_memory` (core/memory negotiation)
* `getUtmcells`         — `get_utmcells` / `createTMPlocation` /
                          `get_actual_location` (GISRC state machine)
* `browseDays`          — `browse_eolab_collection` (archive traversal)
* `resolveBandPaths`    — the per-scene band-file resolution loop
* `importRaster`        — `import_raster` (one import task)
* `importParallel`      — `import_parallel` (`Pool.map`)
* `assembleManifest`    — the registration-manifest loop of `main`
* `mainModel`           — the stage sequencing of `main`

External effects (GRASS commands, the filesystem, the importer binary) are
modelled as explicit inputs: directory listings become lists, the combined
stdout/stderr of `r.import` becomes an oracle `ImportTask → String`, and the
GRASS environment becomes an explicit state record.
-/

namespace TInEOArchive

/-! ### String helpers

Python `pat in hay` (substring test) and `str.endswith`, modelled on the
character lists of the strings. -/

/-- Python substring test `pat in hay`. -/
def listIsInfixOf (pat : List Char) : List Char → Bool
  | [] => pat.isEmpty
  | c :: cs => pat.isPrefixOf (c :: cs) || listIsInfixOf pat cs

/-- Python `pat in hay` on strings. -/
def strContains (hay pat : String) : Bool :=
  listIsInfixOf pat.toList hay.toList

/-- Python `s.endswith(suffixStr)`. -/
def strEndsWith (s suffixStr : String) : Bool :=
  suffixStr.toList.reverse.isPrefixOf s.toList.reverse

/-- Python `s.split(sep)` for a one-character separator (the source only
splits on `"-"`, `"_"` and `"/"`). -/
def splitOnChar (sep : Char) : List Char → List (List Char)
  | [] => [[]]
  | c :: rest =>
      let r := splitOnChar sep rest
      if c == sep then [] :: r
      else
        match r with
        | [] => [[c]]
        | g :: gs => (c :: g) :: gs

/-- Python `s.split(sep)` on strings, one-character separator. -/
def strSplit (sep : Char) (s : String) : List String :=
  (splitOnChar sep s.toList).map (fun g => ⟨g⟩)

/-- Python `s.replace(a, b)` for one-character pattern and replacement
(the source only replaces `"-"` with `"_"`). -/
def strReplaceChar (a b : Char) (s : String) : String :=
  ⟨s.toList.map (fun c => if c == a then b else c)⟩

/-! ### Calendar dates

`datetime.date` values.  Python compares dates lexicographically on
(year, month, day); the constructor validates month/day ranges. -/

structure Date where
  year : Nat
  month : Nat
  day : Nat
deriving Repr, DecidableEq

/-- Python `date` comparison `a < b` (lexicographic on year, month, day). -/
def dateLt (a b : Date) : Bool :=
  a.year < b.year ||
    (a.year == b.year &&
      (a.month < b.month || (a.month == b.month && a.day < b.day)))

/-- Python `date` comparison `a >= b`. -/
def dateGe (a b : Date) : Bool := !dateLt a b

/-- Gregorian leap-year rule, as used by `datetime.date` validation. -/
def isLeap (y : Nat) : Bool :=
  (y % 4 == 0 && y % 100 != 0) || y % 400 == 0

/-- Days in a month, as used by `datetime.date` validation. -/
def daysInMonth (y m : Nat) : Nat :=
  if m == 2 then (if isLeap y then 29 else 28)
  else if m == 4 || m == 6 || m == 9 || m == 11 then 30
  else 31

/-- Embedding of `datetime.date(y, m, d)`: validates ranges, raising (here: `none`) on an
invalid date. -/
def mkDate (y m d : Nat) : Option Date :=
  if 1 ≤ y && y ≤ 9999 && 1 ≤ m && m ≤ 12 && 1 ≤ d && d ≤ daysInMonth y m then
    some ⟨y, m, d⟩
  else none

/-- Left-pad a number to two digits (`%m`, `%d`, `%H`, `%M`, `%S`). -/
def pad2 (n : Nat) : String :=
  if n < 10 then "0" ++ toString n else toString n

/-- Left-pad a number to four digits (`%Y`). -/
def pad4 (n : Nat) : String :=
  if n < 10 then "000" ++ toString n
  else if n < 100 then "00" ++ toString n
  else if n < 1000 then "0" ++ toString n
  else toString n

/-- Embedding of `date.strftime("%Y-%m-%d")`. -/
def formatDate (d : Date) : String :=
  pad4 d.year ++ "-" ++ pad2 d.month ++ "-" ++ pad2 d.day

/-- Model of `int(x)` on a date component string: a nonempty digit string (Python
also tolerates surrounding whitespace and a sign, which never occur in a
well-formed date option). -/
def parseNatComponent (s : String) : Option Nat :=
  let cs := s.toList
  if !cs.isEmpty && cs.all Char.isDigit then
    some (cs.foldl (fun n c => n * 10 + (c.toNat - 48)) 0)
  else none

/-- Parse a `"YYYY-MM-DD"` string the way `check_start_end` does:
split on the dash, `int(...)` on each part, then `date(y, m, d)`. -/
def parseDateStr (s : String) : Option Date :=
  match (strSplit '-' s).map parseNatComponent with
  | [some y, some m, some d] => mkDate y m d
  | _ => none

/-! ### `check_start_end`

Validates the user-defined start and end dates.  `end == "today"` is first
replaced by the current date formatted as `"%Y-%m-%d"`; then both strings
are parsed and the two fatal checks run.  `grass.fatal` aborts the module,
modelled as `Except.error` with the message. -/

/-- Earliest supported acquisition date of the collection. -/
def majaDate : Date := ⟨2015, 7, 1⟩

/-- Embedding of `check_start_end(start, end)`; `todayD` is the current date used to
resolve the `"today"` sentinel. -/
def checkStartEnd (start endS : String) (todayD : Date) :
    Except String (Date × Date) :=
  let endStr := if endS == "today" then formatDate todayD else endS
  match parseDateStr start, parseDateStr endStr with
  | some startDate, some endDate =>
      if dateLt endDate majaDate then
        .error ("End is before 2015-07-01, please select a later " ++
                "end date, as no data is available otherwise")
      else if dateLt endDate startDate then
        .error "End date is before start date"
      else
        .ok (startDate, endDate)
  | _, _ =>
      .error "Start/End date is not defined in format YYYY-MM-DD"

/-! ### `freeRAM` and `test_nprocs_memory`

The psutil readings (available RAM and free swap, in bytes) are explicit
inputs.  Python computes `(mem_available + swap_free) / 1024.0**2 * percent
/ 100.0` in floating point and applies `int(round(...))`; the model uses
exact rationals with Mathlib rounding (round half up, where Python rounds
half to even — the halfway case is immaterial to every claim below). -/

/-- Embedding of `freeRAM("MB", percent)`. -/
def freeRAM_MB (memAvailable swapFree : Nat) (percent : Nat) : Nat :=
  let memoryMB : ℚ := (memAvailable + swapFree : ℚ) / 1024 ^ 2
  (round (memoryMB * percent / 100)).toNat

structure NegotiationResult where
  nprocs : Nat
  usedRam : Nat
  warnings : List String
deriving Repr, DecidableEq

/-- Embedding of `test_nprocs_memory()`.  `reqNprocs` is the parsed nprocs
option (the value `-2` means "all cores but one"), `reqMemory` the parsed
memory option,
`availCores` is `mp.cpu_count()`.  `grass.warning` calls are collected;
the function never fails. -/
def testNprocsMemory (availCores : Nat) (reqNprocs : Int) (reqMemory : Nat)
    (memAvailable swapFree : Nat) : NegotiationResult :=
  let coreStep : Nat × List String :=
    if reqNprocs == -2 then (availCores - 1, [])
    else
      (availCores,
        if reqNprocs > (availCores : Int) then
          ["Using " ++ toString reqNprocs ++ " parallel processes but only " ++
           toString availCores ++ " CPUs available."]
        else [])
  let freeRam := freeRAM_MB memAvailable swapFree 100
  let memStep : Nat × List String :=
    if freeRam < reqMemory then
      (freeRam,
        ["Using " ++ toString reqMemory ++ " MB but only " ++
         toString freeRam ++ " MB RAM available.",
         "Set used memory to " ++ toString freeRam ++ " MB."])
    else (reqMemory, [])
  ⟨coreStep.1, memStep.1, coreStep.2 ++ memStep.2⟩

/-! ### `get_utmcells` and the GISRC state machine

The GRASS working context is the `GISRC` environment variable plus the
module globals (`rm_vectors`, `TMPLOC`, `SRCGISRC`, `TGTGISRC`).  The
external effects (v.in.region, g.proj, v.proj, g.region, v.in.wfs,
v.db.select) are kept abstract; the WFS answer is the `tiles` input, the
temp file path returned by `grass.tempfile()` is the `tmpGisrcPath` input,
and `projOk` is the outcome of the projection verification in
`createTMPlocation` (`grass.fatal` on mismatch, modelled as
`Except.error` carrying the state at the abort). -/

structure GState where
  gisrc : String
  rmVectors : List String
  rmRasters : List String
  tmploc : Option String
  srcgisrc : Option String
  tgtgisrc : Option String
deriving Repr, DecidableEq

/-- Embedding of `get_actual_location()`: records the current `GISRC` in `TGTGISRC`
(location/mapset/GISDBASE reads are external and not tracked). -/
def getActualLocation (s : GState) : GState :=
  { s with tgtgisrc := some s.gisrc }

/-- Embedding of `createTMPlocation(epsg)`: allocates the temp GISRC file and temp
location name, creates the location, switches `GISRC` to the temp file and
verifies the projection, aborting fatally on mismatch. -/
def createTMPlocation (tmpGisrcPath pid : String) (projOk : Bool)
    (s : GState) : Except GState GState :=
  let s1 := { s with srcgisrc := some tmpGisrcPath,
                     tmploc := some ("temp_import_location_" ++ pid) }
  let s2 := { s1 with gisrc := tmpGisrcPath }
  if projOk then .ok s2 else .error s2

/-- Embedding of `get_utmcells()`. -/
def getUtmcells (pid tmpGisrcPath : String) (projOk : Bool)
    (tiles : List String) (s : GState) :
    Except GState (List String × GState) :=
  let tmpregionname := "tmp_region_utmgrid_" ++ pid
  let s1 := { s with rmVectors := s.rmVectors ++ [tmpregionname] }
  let s2 := getActualLocation s1
  match createTMPlocation tmpGisrcPath pid projOk s2 with
  | .error sf => .error sf
  | .ok s3 =>
      let s4 := match s3.tgtgisrc with
        | some t => { s3 with gisrc := t }
        | none => s3
      .ok (tiles, s4)

/-- Embedding of `cleanup()`: the g.remove calls and the removal of the temp location
directory and temp GISRC file are external; the observable context effect
is the restoration of `GISRC` from `TGTGISRC` when it was set. -/
def cleanup (s : GState) : GState :=
  match s.tgtgisrc with
  | some t => { s with gisrc := t }
  | none => s

/-! ### Scene timestamps -/

structure DateTime where
  date : Date
  hour : Nat
  minute : Nat
  second : Nat
deriving Repr, DecidableEq

/-- Embedding of `dt.strftime("%Y-%m-%d %H:%M:%S")`. -/
def formatTimestamp (dt : DateTime) : String :=
  formatDate dt.date ++ " " ++ pad2 dt.hour ++ ":" ++ pad2 dt.minute ++
    ":" ++ pad2 dt.second

def digitVal (c : Char) : Option Nat :=
  if c.isDigit then some (c.toNat - 48) else none

def parseDigits (cs : List Char) : Option Nat :=
  cs.foldl
    (fun acc c =>
      match acc, digitVal c with
      | some n, some d => some (n * 10 + d)
      | _, _ => none)
    (some 0)

/-- Embedding of `datetime.strptime(s, "%Y%m%d-%H%M%S")`, specialised to the fixed-width
form the scene-name tokens take (4+2+2 digits, a dash, 2+2+2 digits), with
the calendar/time range validation `datetime` performs.  Any other shape
raises a `ValueError` in Python, here `none`. -/
def strptimeYmdHMS (s : String) : Option DateTime :=
  let cs := s.toList
  if cs.length == 15 && cs.get? 8 == some '-' then
    match parseDigits (cs.take 4), parseDigits ((cs.drop 4).take 2),
          parseDigits ((cs.drop 6).take 2), parseDigits ((cs.drop 9).take 2),
          parseDigits ((cs.drop 11).take 2), parseDigits ((cs.drop 13).take 2) with
    | some y, some m, some d, some h, some mi, some sec =>
        match mkDate y m d with
        | some dt =>
            if h ≤ 23 && mi ≤ 59 && sec ≤ 59 then some ⟨dt, h, mi, sec⟩
            else none
        | none => none
    | _, _, _, _, _, _ => none
  else none

/-- Python `sep.join(parts)`. -/
def joinWith (sep : String) : List String → String
  | [] => ""
  | [x] => x
  | x :: rest => x ++ sep ++ joinWith sep rest

/-- The timestamp extraction of `browse_eolab_collection`:
`"-".join(scene.replace("-", "_").split("_")[1:3])` then `strptime`. -/
def parseSceneDatetime (scene : String) : Option DateTime :=
  let tokens := strSplit '_' (strReplaceChar '-' '_' scene)
  let dtTokens := (tokens.drop 1).take 2
  strptimeYmdHMS (joinWith "-" dtTokens)

/-! ### `browse_eolab_collection`

The archive tree under `basepath` is the nested `os.listdir` structure;
directory levels are year/month/day/scene.  The `int(...)` of the
year/month/day directory names is kept as parsed `Nat` fields (leading
zeros of the on-disk names are not tracked; no claim inspects the textual
path).  A scene directory carries its own listing and the listing of its
`MASKS` subdirectory. -/

structure SceneDir where
  name : String
  files : List String
  masks : List String
deriving Repr, DecidableEq

structure DayDir where
  year : Nat
  month : Nat
  day : Nat
  scenes : List SceneDir
deriving Repr, DecidableEq

structure SceneRec where
  scene : String
  path : String
  dt : DateTime
  bandPaths : List (String × String)
deriving Repr, DecidableEq

/-- Value `collection_dict["file_format"]` of S2-L2A-MAJA. -/
def fileFormat : String := ".tif"

/-- Value `collection_dict["CLM_dir"]` of S2-L2A-MAJA. -/
def clmDir : String := "MASKS"

/-- Path `os.path.join(mountpoint, collection_dict["basepath"])`. -/
def collectionBasepath (mountpoint : String) : String :=
  mountpoint ++ "/Sentinel-2/MSI/L2A-MAJA"

/-- The `bands_filesuffixes` dict literal of the S2-L2A-MAJA collection,
in insertion order. -/
def bandsFilesuffixesAll : List (String × String) :=
  [("S2_B2", "FRE_B2"), ("S2_B3", "FRE_B3"), ("S2_B4", "FRE_B4"),
   ("S2_B5", "FRE_B5"), ("S2_B6", "FRE_B6"), ("S2_B7", "FRE_B7"),
   ("S2_B8", "FRE_B8"), ("S2_B8A", "FRE_B8A"), ("S2_B11", "FRE_B11"),
   ("S2_B12", "FRE_B12"), ("S2_CLM", "CLM_R1")]

/-- The swapped suffix→band dictionary built at the top of
`browse_eolab_collection`, restricted to the requested bands. -/
def bandsFilesuffixes (bands : List String) : List (String × String) :=
  (bandsFilesuffixesAll.filter (fun kv => bands.contains kv.1)).map
    (fun kv => (kv.2, kv.1))

/-- The `for file in files: if file_ending in file: assign` pattern: the
last matching file wins. -/
def lastMatch (pat : String) : List String → Option String
  | [] => none
  | f :: rest =>
      match lastMatch pat rest with
      | some g => some g
      | none => if strContains f pat then some f else none

/-- The band-resolution loop over `bands_filesuffixes.items()`.  Band names
(the dict keys being assigned) are pairwise distinct in the suffix table,
so each dict assignment is a fresh insertion, kept in iteration order. -/
def resolveBandPathsGo (bandsInScenedir masks : List String) :
    List (String × String) → List (String × String)
  | [] => []
  | (suffixTok, bandname) :: rest =>
      let fileEnding := suffixTok ++ fileFormat
      let tail := resolveBandPathsGo bandsInScenedir masks rest
      if bandname != "S2_CLM" then
        match lastMatch fileEnding bandsInScenedir with
        | some f => (bandname, f) :: tail
        | none => tail
      else
        match lastMatch fileEnding masks with
        | some f => (bandname, clmDir ++ "/" ++ f) :: tail
        | none => tail

/-- Per-scene `band_paths` construction: `bands_in_scenedir` keeps only the
files ending in the collection format, and every suffix is matched as the
full token `suffix + file_format`. -/
def resolveBandPaths (bands : List String) (sc : SceneDir) :
    List (String × String) :=
  let bandsInScenedir := sc.files.filter (fun f => strEndsWith f fileFormat)
  resolveBandPathsGo bandsInScenedir sc.masks (bandsFilesuffixes bands)

/-- Test `any(tile in scene for tile in tiles)`. -/
def sceneMatches (tiles : List String) (name : String) : Bool :=
  tiles.any (fun t => strContains name t)

/-- Builds the `scene_dir` record for one matching scene; a `strptime`
failure raises and aborts the whole browse. -/
def mkSceneRec (bands : List String) (dayPath : String) (sc : SceneDir) :
    Except String SceneRec :=
  match parseSceneDatetime sc.name with
  | some dt =>
      .ok ⟨sc.name, dayPath ++ "/" ++ sc.name, dt, resolveBandPaths bands sc⟩
  | none => .error "time data does not match format"

/-- Test `folder_date >= start_date and folder_date < end_date`. -/
def inDateRange (startD endD : Date) (dd : DayDir) : Bool :=
  dateGe ⟨dd.year, dd.month, dd.day⟩ startD &&
    dateLt ⟨dd.year, dd.month, dd.day⟩ endD

/-- The scene loop of a qualifying day: non-matching scene directories are
skipped without their contents being read. -/
def browseScenes (bands : List String) (tiles : List String)
    (dayPath : String) : List SceneDir → Except String (List SceneRec)
  | [] => .ok []
  | sc :: rest =>
      if sceneMatches tiles sc.name then
        match mkSceneRec bands dayPath sc with
        | .error e => .error e
        | .ok r =>
            match browseScenes bands tiles dayPath rest with
            | .error e => .error e
            | .ok rs => .ok (r :: rs)
      else browseScenes bands tiles dayPath rest

/-- One day directory: descended into only when its folder date lies in the
half-open date range. -/
def browseDay (basepath : String) (bands tiles : List String)
    (startD endD : Date) (dd : DayDir) : Except String (List SceneRec) :=
  if inDateRange startD endD dd then
    browseScenes bands tiles
      (basepath ++ "/" ++ toString dd.year ++ "/" ++ toString dd.month ++
        "/" ++ toString dd.day) dd.scenes
  else .ok []

/-- The year/month/day traversal of `browse_eolab_collection`, flattened to
the sequence of day directories it visits (the nesting into year and month
levels only determines this sequence). -/
def browseDays (basepath : String) (bands tiles : List String)
    (startD endD : Date) : List DayDir → Except String (List SceneRec)
  | [] => .ok []
  | dd :: rest =>
      match browseDay basepath bands tiles startD endD dd with
      | .error e => .error e
      | .ok rs =>
          match browseDays basepath bands tiles startD endD rest with
          | .error e => .error e
          | .ok rest' => .ok (rs ++ rest')

/-! ### `import_raster` and `import_parallel`

The external importer (`r.import`) is abstracted by an oracle mapping the
task to the combined stdout+stderr text the importer produced; everything
the Python function derives from that text is modelled exactly. -/

structure ImportTask where
  input : String
  name : String
  memory : Nat
  semanticLabel : String
  dt : DateTime
deriving Repr, DecidableEq

structure ImportResult where
  name : String
  dt : DateTime
  mapEmpty : Bool
  band : String
deriving Repr, DecidableEq

/-- The memory-unit quirk: value ≥ 100000 would be read as bytes by GDAL,
so it is scaled by 10^6. -/
def normalizeMemory (m : Nat) : Nat :=
  if m ≥ 100000 then m * 1000000 else m

/-- The two literal empty-result phrases searched for in the importer
output. -/
def emptyStrings (name : String) : List String :=
  ["<" ++ name ++ "> is empty",
   "Input raster does not overlap current computational region"]

structure ImportOutcome where
  result : ImportResult
  warnings : List String
  importerMemoryArg : Nat
deriving Repr, DecidableEq

/-- Embedding of `import_raster(paramdict)`. -/
def importRaster (oracle : ImportTask → String) (t : ImportTask) :
    ImportOutcome :=
  let mem := normalizeMemory t.memory
  let respText := oracle t
  let mapEmpty := (emptyStrings t.name).any (fun s => strContains respText s)
  { result := ⟨t.name, t.dt, mapEmpty, t.semanticLabel⟩,
    warnings :=
      if mapEmpty then
        ["Only no-data values found in current region for input raster <" ++
         t.input ++ ">"]
      else [],
    importerMemoryArg := mem }

/-- Embedding of `import_parallel(import_parallel_list, num_processes)`:
`Pool(processes=n).map(import_raster, tasks)` — `Pool.map` returns results
in the order of its input iterable. -/
def importParallel (oracle : ImportTask → String) (tasks : List ImportTask)
    (numProcesses : Nat) : List ImportResult :=
  let _ := numProcesses
  tasks.map (fun t => (importRaster oracle t).result)

/-! ### The registration manifest of `main` -/

/-- One `f"{map}|{str_timestamp}\n"` manifest line. -/
def manifestLine (r : ImportResult) : String :=
  r.name ++ "|" ++ formatTimestamp r.dt ++ "\n"

/-- Test `if map_empty is False or band == "S2_CLM"`. -/
def keepResult (r : ImportResult) : Bool :=
  !r.mapEmpty || r.band == "S2_CLM"

/-- The registration loop of `main`: one manifest line per retained result,
every other result appended to `rm_rasters`. -/
def assembleManifest : List ImportResult → String × List String
  | [] => ("", [])
  | r :: rest =>
      let acc := assembleManifest rest
      if keepResult r then (manifestLine r ++ acc.1, acc.2)
      else (acc.1, r.name :: acc.2)

/-! ### Task construction and `main` -/

/-- Embedding of `os.path.splitext(f)[0]`: drop from the final dot on (the band
filenames never start with a dot). -/
def splitextRoot (f : String) : String :=
  let cs := f.toList
  if cs.contains '.' then
    ⟨((cs.reverse.dropWhile (fun c => c != '.')).drop 1).reverse⟩
  else f

/-- The raster-name derivation of `main`:
`os.path.splitext(filename)[0].replace("-", "_")` then the last `/`
component (cloud masks come as `MASKS/<FILENAME>`). -/
def mkTaskName (filename : String) : String :=
  let nameTmp := strReplaceChar '-' '_' (splitextRoot filename)
  (strSplit '/' nameTmp).getLastD nameTmp

/-- The `import_parallel_list` construction of `main`. -/
def buildImportList (scenes : List SceneRec) (ramPerProc : Nat) :
    List ImportTask :=
  scenes.flatMap (fun sd =>
    sd.bandPaths.map (fun bp =>
      { input := sd.path ++ "/" ++ bp.2,
        name := mkTaskName bp.2,
        memory := ramPerProc,
        semanticLabel := bp.1,
        dt := sd.dt }))

inductive MainStep
  | validate
  | browseStep
  | emptyAbort
  | negotiate
  | importBands
  | createStrds
  | registerMaps
deriving Repr, DecidableEq

structure MainOutput where
  manifest : String
  rmRasters : List String
  results : List ImportResult
deriving Repr, DecidableEq

/-- The fatal message of the empty-manifest abort. -/
def noScenesMsg : String :=
  "No scenes matching the spatial and temporal filter found. Exiting..."

/-- The stage sequencing of `main` (archive fixed to `eolab`, collection to
`S2-L2A-MAJA`, the only values the option parser accepts).  Tile
resolution runs inside the browsing stage, so `tiles` is an input here.
Each run yields the ordered list of stages it reached plus either the
fatal message or the final outputs.  `int(used_ram / nprocs)` raises an
uncaught `ZeroDivisionError` when the negotiated core count is 0 (a
1-core host with the default `nprocs=-2`), crashing the run right after
negotiation and before any import; that crash path is modelled
explicitly. -/
def mainModel (start endS : String) (todayD : Date) (mountpoint : String)
    (tiles bands : List String) (days : List DayDir)
    (availCores : Nat) (reqNprocs : Int) (reqMemory : Nat)
    (memAvailable swapFree : Nat) (oracle : ImportTask → String) :
    List MainStep × Except String MainOutput :=
  match checkStartEnd start endS todayD with
  | .error e => ([.validate], .error e)
  | .ok se =>
      match browseDays (collectionBasepath mountpoint) bands tiles
          se.1 se.2 days with
      | .error e => ([.validate, .browseStep], .error e)
      | .ok scenes =>
          if scenes.length == 0 then
            ([.validate, .browseStep, .emptyAbort], .error noScenesMsg)
          else
            let neg := testNprocsMemory availCores reqNprocs reqMemory
              memAvailable swapFree
            if neg.nprocs == 0 then
              ([.validate, .browseStep, .negotiate],
               .error "ZeroDivisionError: division by zero")
            else
              let ramPerProc := neg.usedRam / neg.nprocs
              let tasksList := buildImportList scenes ramPerProc
              let maps := importParallel oracle tasksList neg.nprocs
              let acc := assembleManifest maps
              ([.validate, .browseStep, .negotiate, .importBands,
                .createStrds, .registerMaps],
               .ok ⟨acc.1, acc.2, maps⟩)

/-! ### Pruning (for the traversal-locality statement)

The browser must never read the contents of a non-matching scene directory
nor the scene list of an out-of-range day.  Extensionally: replacing those
untouched parts by anything (here: emptying them) leaves the result
unchanged. -/

/-- Blank the contents of a scene directory unless its name matches a
tile. -/
def pruneScene (tiles : List String) (sc : SceneDir) : SceneDir :=
  if sceneMatches tiles sc.name then sc
  else { sc with files := [], masks := [] }

/-- Blank the scene list of an out-of-range day; inside the range, blank
only non-matching scene contents. -/
def pruneDay (tiles : List String) (startD endD : Date) (dd : DayDir) :
    DayDir :=
  if inDateRange startD endD dd then
    { dd with scenes := dd.scenes.map (pruneScene tiles) }
  else { dd with scenes := [] }

/-! ### Concrete sample data (used by witness theorems) -/

def sampleDT : DateTime := ⟨⟨2022, 7, 1⟩, 10, 52, 53⟩

def sampleSceneName : String :=
  "SENTINEL2A_20220701-105253-123_L2A_T32ULB_C_V2-2"

def sampleB8File : String := sampleSceneName ++ "_FRE_B8.tif"

def sampleB8AFile : String := sampleSceneName ++ "_FRE_B8A.tif"

def sampleCLMFile : String := sampleSceneName ++ "_CLM_R1.tif"

def sampleScene : SceneDir :=
  ⟨sampleSceneName, [sampleB8File, sampleB8AFile], [sampleCLMFile]⟩

def sampleDay : DayDir := ⟨2022, 7, 1, [sampleScene]⟩

/-- The scene record the browser produces for `sampleDay` under mountpoint
`/codede`, tile `32ULB` and requested band `S2_B8`. -/
def sampleRec : SceneRec :=
  ⟨sampleSceneName,
   collectionBasepath "/codede" ++ "/2022/7/1/" ++ sampleSceneName,
   sampleDT, [("S2_B8", sampleB8File)]⟩

def silentOracle : ImportTask → String := fun _ => ""

def sampleTask : ImportTask :=
  ⟨"/codede/Sentinel-2/MSI/L2A-MAJA/2022/7/1/" ++ sampleSceneName ++ "/" ++
     sampleB8File,
   mkTaskName sampleB8File, 300, "S2_B8", sampleDT⟩

def sampleGState : GState :=
  ⟨"/home/user/grassdata/.gisrc", [], [], none, none, none⟩

/-- The state in which `get_utmcells` leaves the module after a successful
run started from `sampleGState` with pid 42 and temp file
`/tmp/tmpgisrc0`. -/
def utmOkState : GState :=
  ⟨sampleGState.gisrc, ["tmp_region_utmgrid_42"], [],
   some "temp_import_location_42", some "/tmp/tmpgisrc0",
   some sampleGState.gisrc⟩

/-! ## Theorems -/

/-- A successful `lastMatch` returns a member of the list that contains the
pattern. -/
theorem lastMatch_some (pat : String) (files : List String) (p : String)
    (h : lastMatch pat files = some p) :
    p ∈ files ∧ strContains p pat = true := by
  induction files with
  | nil => simp [lastMatch] at h
  | cons f rest ih =>
      simp only [lastMatch] at h
      cases hr : lastMatch pat rest with
      | some g =>
          rw [hr] at h
          injection h with h'
          subst h'
          obtain ⟨hm, hc⟩ := ih hr
          exact ⟨List.mem_cons_of_mem _ hm, hc⟩
      | none =>
          rw [hr] at h
          by_cases hcnt : strContains f pat = true
          · rw [if_pos hcnt] at h
            injection h with h'
            subst h'
            exact ⟨List.mem_cons_self _ _, hcnt⟩
          · rw [if_neg hcnt] at h
            exact absurd h (by simp)

/-- Every entry produced by the band-resolution loop stems from a suffix
table entry, via `lastMatch` on the scene files (non-cloud-mask bands) or
on the `MASKS` listing with the `MASKS/` prefix (the cloud-mask band). -/
theorem resolveBandPathsGo_mem (files masks : List String)
    (entries : List (String × String)) (b p : String)
    (h : (b, p) ∈ resolveBandPathsGo files masks entries) :
    ∃ suffixTok, (suffixTok, b) ∈ entries ∧
      ((b ≠ "S2_CLM" ∧
          lastMatch (suffixTok ++ fileFormat) files = some p) ∨
       (b = "S2_CLM" ∧ ∃ g,
          lastMatch (suffixTok ++ fileFormat) masks = some g ∧
          p = clmDir ++ "/" ++ g)) := by
  induction entries with
  | nil => simp [resolveBandPathsGo] at h
  | cons e rest ih =>
      obtain ⟨suffixTok, bandname⟩ := e
      simp only [resolveBandPathsGo] at h
      by_cases hb : bandname = "S2_CLM"
      · subst hb
        simp only [bne_self_eq_false, Bool.false_eq_true, if_false,
          reduceIte] at h
        cases hm : lastMatch (suffixTok ++ fileFormat) masks with
        | some f =>
            rw [hm] at h
            rcases List.mem_cons.mp h with hhead | htail
            · obtain ⟨rfl, rfl⟩ := Prod.mk.injEq .. ▸ hhead
              exact ⟨suffixTok, List.mem_cons_self _ _,
                Or.inr ⟨rfl, f, hm, rfl⟩⟩
            · obtain ⟨st, hst, hc⟩ := ih htail
              exact ⟨st, List.mem_cons_of_mem _ hst, hc⟩
        | none =>
            rw [hm] at h
            obtain ⟨st, hst, hc⟩ := ih h
            exact ⟨st, List.mem_cons_of_mem _ hst, hc⟩
      · have hbne : (bandname != "S2_CLM") = true := by
          simp [bne_iff_ne, hb]
        rw [hbne] at h
        simp only [if_true, reduceIte] at h
        cases hm : lastMatch (suffixTok ++ fileFormat) files with
        | some f =>
            rw [hm] at h
            rcases List.mem_cons.mp h with hhead | htail
            · obtain ⟨rfl, rfl⟩ := Prod.mk.injEq .. ▸ hhead
              exact ⟨suffixTok, List.mem_cons_self _ _,
                Or.inl ⟨hb, hm⟩⟩
            · obtain ⟨st, hst, hc⟩ := ih htail
              exact ⟨st, List.mem_cons_of_mem _ hst, hc⟩
        | none =>
            rw [hm] at h
            obtain ⟨st, hst, hc⟩ := ih h
            exact ⟨st, List.mem_cons_of_mem _ hst, hc⟩

/-- Membership in the swapped suffix dictionary comes from the fixed table
restricted to the requested bands. -/
theorem bandsFilesuffixes_mem (bands : List String) (suffixTok b : String)
    (h : (suffixTok, b) ∈ bandsFilesuffixes bands) :
    (b, suffixTok) ∈ bandsFilesuffixesAll ∧ bands.contains b = true := by
  simp only [bandsFilesuffixes, List.mem_map, List.mem_filter] at h
  obtain ⟨⟨b', s'⟩, ⟨hmem, hcont⟩, heq⟩ := h
  simp only [Prod.mk.injEq] at heq
  obtain ⟨rfl, rfl⟩ := heq
  exact ⟨hmem, hcont⟩

/-- C8: for every import task, when the numeric per-task memory budget is
≥ 100000 the value passed to the external importer equals the budget
multiplied by 10^6, and when it is < 100000 the budget is passed through
unchanged. -/
theorem memory_unit_normalization (oracle : ImportTask → String)
    (t : ImportTask) :
    (importRaster oracle t).importerMemoryArg =
      if t.memory ≥ 100000 then t.memory * 10 ^ 6 else t.memory := by
  simp only [importRaster, normalizeMemory]
  norm_num

/-- C4: `import_raster` marks the result empty exactly when the importer
output contains one of the two literal empty-result phrases, and emits the
non-fatal warning naming the offending source path exactly when it does. -/
theorem empty_raster_detection (oracle : ImportTask → String)
    (t : ImportTask) :
    (importRaster oracle t).result.mapEmpty =
      (strContains (oracle t) ("<" ++ t.name ++ "> is empty") ||
        strContains (oracle t)
          "Input raster does not overlap current computational region") ∧
    (importRaster oracle t).warnings =
      (if (importRaster oracle t).result.mapEmpty then
        ["Only no-data values found in current region for input raster <" ++
          t.input ++ ">"]
       else []) := by
  constructor
  · simp [importRaster, emptyStrings]
  · rfl

/-- C10: `import_parallel` returns one result per task, positionally
aligned with submission order: the i-th result carries the name,
datetime and semantic label of the i-th task, for any worker count ≥ 1. -/
theorem parallel_import_alignment (oracle : ImportTask → String)
    (tasks : List ImportTask) (n : Nat) (h : 1 ≤ n) :
    (importParallel oracle tasks n).length = tasks.length ∧
    (importParallel oracle tasks n).map ImportResult.name =
      tasks.map ImportTask.name ∧
    (importParallel oracle tasks n).map ImportResult.dt =
      tasks.map ImportTask.dt ∧
    (importParallel oracle tasks n).map ImportResult.band =
      tasks.map ImportTask.semanticLabel := by
  refine ⟨?_, ?_, ?_, ?_⟩ <;>
    simp [importParallel, importRaster, List.map_map, Function.comp]

/-- C10 witness: the alignment instantiated on a concrete one-task run. -/
theorem parallel_import_alignment_witness :
    (importParallel silentOracle [sampleTask] 1).length =
      [sampleTask].length ∧
    (importParallel silentOracle [sampleTask] 1).map ImportResult.name =
      [sampleTask].map ImportTask.name ∧
    (importParallel silentOracle [sampleTask] 1).map ImportResult.dt =
      [sampleTask].map ImportTask.dt ∧
    (importParallel silentOracle [sampleTask] 1).map ImportResult.band =
      [sampleTask].map ImportTask.semanticLabel :=
  parallel_import_alignment silentOracle [sampleTask] 1 (by decide)

/-- C1: the registration loop writes one `name|timestamp` line per result
whose `is_empty` flag is false or whose semantic label is the cloud-mask
label `S2_CLM`, and appends every other result to the deletion registry
`rm_rasters`. -/
theorem retention_policy (maps : List ImportResult) :
    assembleManifest maps =
      (((maps.filter keepResult).map manifestLine).foldr (· ++ ·) "",
        (maps.filter (fun r => !keepResult r)).map ImportResult.name) := by
  induction maps with
  | nil => rfl
  | cons r rest ih =>
      by_cases h : keepResult r <;>
        simp [assembleManifest, h, ih]

/-- C5 counterexample: `test_nprocs_memory` does not return the requested
core count in the non-sentinel case (it returns `cpu_count()`, here 4, not
the requested 2), and in the `-2` case it returns `cpu_count() - 1` without
any clamp to 1 (on a 1-core host it returns 0, not `max(0, 1) = 1`). -/
theorem resource_negotiation_counterexample :
    (testNprocsMemory 4 2 300 (8 * 1024 ^ 3) 0).nprocs = 4 ∧
    (testNprocsMemory 4 2 300 (8 * 1024 ^ 3) 0).nprocs ≠ 2 ∧
    (testNprocsMemory 1 (-2) 300 (8 * 1024 ^ 3) 0).nprocs = 0 ∧
    (testNprocsMemory 1 (-2) 300 (8 * 1024 ^ 3) 0).nprocs ≠ 1 := by
  refine ⟨rfl, by decide, rfl, by decide⟩

/-- C5 amended: when the requested core count is the `-2` sentinel the
returned core count is `available_cores - 1` (no clamp to 1); otherwise
the returned core count is `available_cores` itself (the requested value
is not returned), with warnings exactly when the request exceeds the
available cores or the requested memory exceeds the free RAM+swap-derived
budget; the memory budget is clamped to that free budget; negotiation
always returns and never raises. -/
theorem resource_negotiation (availCores : Nat) (reqNprocs : Int)
    (reqMemory memAvailable swapFree : Nat) :
    (testNprocsMemory availCores reqNprocs reqMemory memAvailable
        swapFree).nprocs =
      (if reqNprocs = -2 then availCores - 1 else availCores) ∧
    (testNprocsMemory availCores reqNprocs reqMemory memAvailable
        swapFree).usedRam =
      min (freeRAM_MB memAvailable swapFree 100) reqMemory ∧
    ((testNprocsMemory availCores reqNprocs reqMemory memAvailable
        swapFree).warnings = [] ↔
      ((reqNprocs = -2 ∨ reqNprocs ≤ (availCores : Int)) ∧
        reqMemory ≤ freeRAM_MB memAvailable swapFree 100)) := by
  refine ⟨?_, ?_, ?_⟩
  · by_cases hc : reqNprocs = -2 <;> simp [testNprocsMemory, hc]
  · by_cases hm : freeRAM_MB memAvailable swapFree 100 < reqMemory
    · simp only [testNprocsMemory, hm, if_true, reduceIte]
      exact (Nat.min_eq_left (Nat.le_of_lt hm)).symm
    · simp only [testNprocsMemory, hm, reduceIte]
      exact (Nat.min_eq_right (Nat.le_of_not_lt hm)).symm
  · by_cases hc : reqNprocs = -2 <;>
      by_cases hm : freeRAM_MB memAvailable swapFree 100 < reqMemory <;>
        by_cases hw : (availCores : Int) < reqNprocs <;>
          simp [testNprocsMemory, hc, hm, hw] <;>
            omega

/-- C6: `check_start_end` fails fatally whenever the (sentinel-resolved,
parsed) end date precedes 2015-07-01, and whenever it precedes the start
date; otherwise it returns the parsed pair. -/
theorem date_range_validation (start endS : String) (todayD sd ed : Date)
    (hs : parseDateStr start = some sd)
    (he : parseDateStr (if endS == "today" then formatDate todayD else endS)
      = some ed) :
    (dateLt ed majaDate = true →
      checkStartEnd start endS todayD =
        .error ("End is before 2015-07-01, please select a later " ++
                "end date, as no data is available otherwise")) ∧
    (dateLt ed majaDate = false → dateLt ed sd = true →
      checkStartEnd start endS todayD =
        .error "End date is before start date") ∧
    (dateLt ed majaDate = false → dateLt ed sd = false →
      checkStartEnd start endS todayD = .ok (sd, ed)) := by
  have key : checkStartEnd start endS todayD =
      (if dateLt ed majaDate then
        Except.error ("End is before 2015-07-01, please select a later " ++
          "end date, as no data is available otherwise")
       else if dateLt ed sd then
        Except.error "End date is before start date"
       else Except.ok (sd, ed)) := by
    unfold checkStartEnd
    simp only [hs, he]
  constructor
  · intro h1
    rw [key]
    simp [h1]
  constructor
  · intro h1 h2
    rw [key]
    simp [h1, h2]
  · intro h1 h2
    rw [key]
    simp [h1, h2]

/-- C6 witness: a valid range is accepted and returned as parsed dates. -/
theorem date_range_validation_witness :
    checkStartEnd "2022-07-01" "2022-07-15" ⟨2026, 10, 12⟩ =
      .ok (⟨2022, 7, 1⟩, ⟨2022, 7, 15⟩) :=
  (date_range_validation "2022-07-01" "2022-07-15" ⟨2026, 10, 12⟩
      ⟨2022, 7, 1⟩ ⟨2022, 7, 15⟩ (by decide) (by decide)).2.2
    (by decide) (by decide)

/-- C9: after `get_utmcells` returns, the active `GISRC` pointer equals the
original one of the caller, and the disposable workspace (location and
GISRC file) and the intermediate region vector are registered for teardown
regardless of outcome; on the fatal path, `cleanup` restores the original
`GISRC`. -/
theorem tile_resolution_context (pid tmpGisrcPath : String) (projOk : Bool)
    (tiles : List String) (s : GState) :
    (∀ ts s2, getUtmcells pid tmpGisrcPath projOk tiles s = .ok (ts, s2) →
      s2.gisrc = s.gisrc ∧ ts = tiles ∧
      s2.rmVectors = s.rmVectors ++ ["tmp_region_utmgrid_" ++ pid] ∧
      s2.tmploc = some ("temp_import_location_" ++ pid) ∧
      s2.srcgisrc = some tmpGisrcPath) ∧
    (∀ sf, getUtmcells pid tmpGisrcPath projOk tiles s = .error sf →
      sf.rmVectors = s.rmVectors ++ ["tmp_region_utmgrid_" ++ pid] ∧
      sf.tmploc = some ("temp_import_location_" ++ pid) ∧
      sf.srcgisrc = some tmpGisrcPath ∧
      (cleanup sf).gisrc = s.gisrc) := by
  constructor
  · intro ts s2 h
    cases projOk with
    | false =>
        have e : getUtmcells pid tmpGisrcPath false tiles s =
            .error ⟨tmpGisrcPath,
              s.rmVectors ++ ["tmp_region_utmgrid_" ++ pid], s.rmRasters,
              some ("temp_import_location_" ++ pid), some tmpGisrcPath,
              some s.gisrc⟩ := rfl
        rw [e] at h
        simp at h
    | true =>
        have e : getUtmcells pid tmpGisrcPath true tiles s =
            .ok (tiles, ⟨s.gisrc,
              s.rmVectors ++ ["tmp_region_utmgrid_" ++ pid], s.rmRasters,
              some ("temp_import_location_" ++ pid), some tmpGisrcPath,
              some s.gisrc⟩) := rfl
        rw [e] at h
        simp only [Except.ok.injEq, Prod.mk.injEq] at h
        obtain ⟨h1, h2⟩ := h
        subst h1
        subst h2
        exact ⟨rfl, rfl, rfl, rfl, rfl⟩
  · intro sf h
    cases projOk with
    | true =>
        have e : getUtmcells pid tmpGisrcPath true tiles s =
            .ok (tiles, ⟨s.gisrc,
              s.rmVectors ++ ["tmp_region_utmgrid_" ++ pid], s.rmRasters,
              some ("temp_import_location_" ++ pid), some tmpGisrcPath,
              some s.gisrc⟩) := rfl
        rw [e] at h
        simp at h
    | false =>
        have e : getUtmcells pid tmpGisrcPath false tiles s =
            .error ⟨tmpGisrcPath,
              s.rmVectors ++ ["tmp_region_utmgrid_" ++ pid], s.rmRasters,
              some ("temp_import_location_" ++ pid), some tmpGisrcPath,
              some s.gisrc⟩ := rfl
        rw [e] at h
        simp only [Except.error.injEq] at h
        subst h
        exact ⟨rfl, rfl, rfl, rfl⟩

/-- C9 witness: a successful tile resolution from a concrete state restores
the original `GISRC` and registers the temporary objects. -/
theorem tile_resolution_context_witness :
    utmOkState.gisrc = sampleGState.gisrc ∧
    ["32ULB"] = ["32ULB"] ∧
    utmOkState.rmVectors =
      sampleGState.rmVectors ++ ["tmp_region_utmgrid_" ++ "42"] ∧
    utmOkState.tmploc = some ("temp_import_location_" ++ "42") ∧
    utmOkState.srcgisrc = some "/tmp/tmpgisrc0" :=
  (tile_resolution_context "42" "/tmp/tmpgisrc0" true ["32ULB"]
      sampleGState).1 ["32ULB"] utmOkState (by rfl)

/-- C3: every recorded band path of a non-cloud-mask band is a file of the
scene directory, carries the format extension, and contains the full
suffix token of the band including that extension (so a longer band code
sharing a stem is never selected for the shorter one); the cloud-mask band
is resolved in the `MASKS` subdirectory, its recorded path starting with it.
The closed conjunct exhibits this on a scene holding both a `B8` and a
`B8A` file. -/
theorem band_path_resolution :
    (∀ bands sc b p, (b, p) ∈ resolveBandPaths bands sc →
      (b ≠ "S2_CLM" →
        ∃ suffixTok, (b, suffixTok) ∈ bandsFilesuffixesAll ∧
          bands.contains b = true ∧ p ∈ sc.files ∧
          strEndsWith p fileFormat = true ∧
          strContains p (suffixTok ++ fileFormat) = true) ∧
      (b = "S2_CLM" →
        ∃ g, g ∈ sc.masks ∧ p = clmDir ++ "/" ++ g ∧
          ∃ suffixTok, ("S2_CLM", suffixTok) ∈ bandsFilesuffixesAll ∧
            strContains g (suffixTok ++ fileFormat) = true)) ∧
    resolveBandPaths ["S2_B8", "S2_CLM"] sampleScene =
      [("S2_B8", sampleB8File), ("S2_CLM", "MASKS/" ++ sampleCLMFile)] := by
  constructor
  · intro bands sc b p h
    obtain ⟨suffixTok, hmem, hcase⟩ :=
      resolveBandPathsGo_mem _ _ _ _ _ h
    obtain ⟨hall, hcont⟩ := bandsFilesuffixes_mem bands suffixTok b hmem
    constructor
    · intro hb
      rcases hcase with ⟨_, hlm⟩ | ⟨hb', _⟩
      · obtain ⟨hpmem, hpc⟩ := lastMatch_some _ _ _ hlm
        obtain ⟨hpf, hpe⟩ := List.mem_filter.mp hpmem
        exact ⟨suffixTok, hall, hcont, hpf, hpe, hpc⟩
      · exact absurd hb' hb
    · intro hb
      rcases hcase with ⟨hb', _⟩ | ⟨_, g, hlm, hp⟩
      · exact absurd hb hb'
      · obtain ⟨hgmem, hgc⟩ := lastMatch_some _ _ _ hlm
        exact ⟨g, hgmem, hp, suffixTok, hb ▸ hall, hgc⟩
  · decide

/-- C3 witness: the general characterization instantiated on the sample
scene for band `S2_B8`. -/
theorem band_path_resolution_witness :
    ∃ suffixTok, ("S2_B8", suffixTok) ∈ bandsFilesuffixesAll ∧
      (["S2_B8", "S2_CLM"] : List String).contains "S2_B8" = true ∧
      sampleB8File ∈ sampleScene.files ∧
      strEndsWith sampleB8File fileFormat = true ∧
      strContains sampleB8File (suffixTok ++ fileFormat) = true :=
  (band_path_resolution.1 ["S2_B8", "S2_CLM"] sampleScene "S2_B8"
      sampleB8File (by decide)).1 (by decide)

/-- A scene record keeps the name of the scene directory it was built
from. -/
theorem mkSceneRec_scene (bands : List String) (dayPath : String)
    (sc : SceneDir) (r : SceneRec)
    (h : mkSceneRec bands dayPath sc = .ok r) : r.scene = sc.name := by
  unfold mkSceneRec at h
  cases hp : parseSceneDatetime sc.name with
  | none =>
      rw [hp] at h
      exact absurd h (by simp)
  | some dt =>
      rw [hp] at h
      injection h with h'
      subst h'
      rfl

/-- Membership in the per-day scene pass: every produced record stems from
a matching scene directory, and every matching scene directory produces a
record. -/
theorem browseScenes_mem (bands tiles : List String) (dayPath : String)
    (scenes : List SceneDir) (recs : List SceneRec)
    (h : browseScenes bands tiles dayPath scenes = .ok recs) :
    (∀ r ∈ recs, ∃ sc ∈ scenes,
      sceneMatches tiles sc.name = true ∧ r.scene = sc.name) ∧
    (∀ sc ∈ scenes, sceneMatches tiles sc.name = true →
      ∃ r ∈ recs, r.scene = sc.name) := by
  induction scenes generalizing recs with
  | nil =>
      simp only [browseScenes, Except.ok.injEq] at h
      subst h
      simp
  | cons sc rest ih =>
      by_cases hm : sceneMatches tiles sc.name = true
      · simp only [browseScenes, hm, if_true, reduceIte] at h
        cases hk : mkSceneRec bands dayPath sc with
        | error e => rw [hk] at h; exact absurd h (by simp)
        | ok r0 =>
            rw [hk] at h
            cases hrest : browseScenes bands tiles dayPath rest with
            | error e => rw [hrest] at h; exact absurd h (by simp)
            | ok rs =>
                rw [hrest] at h
                injection h with h'
                subst h'
                obtain ⟨fwd, bwd⟩ := ih rs hrest
                constructor
                · intro r hr
                  rcases List.mem_cons.mp hr with rfl | htail
                  · exact ⟨sc, List.mem_cons_self _ _, hm,
                      mkSceneRec_scene _ _ _ _ hk⟩
                  · obtain ⟨sc', hsc', hm', hn'⟩ := fwd r htail
                    exact ⟨sc', List.mem_cons_of_mem _ hsc', hm', hn'⟩
                · intro sc' hsc' hm'
                  rcases List.mem_cons.mp hsc' with rfl | htail
                  · exact ⟨r0, List.mem_cons_self _ _,
                      mkSceneRec_scene _ _ _ _ hk⟩
                  · obtain ⟨r, hr, hn⟩ := bwd sc' htail hm'
                    exact ⟨r, List.mem_cons_of_mem _ hr, hn⟩
      · simp only [browseScenes, hm, if_false, reduceIte] at h
        obtain ⟨fwd, bwd⟩ := ih recs h
        constructor
        · intro r hr
          obtain ⟨sc', hsc', hm', hn'⟩ := fwd r hr
          exact ⟨sc', List.mem_cons_of_mem _ hsc', hm', hn'⟩
        · intro sc' hsc' hm'
          rcases List.mem_cons.mp hsc' with rfl | htail
          · exact absurd hm' hm
          · exact bwd sc' htail hm'

/-- Membership across the whole traversal. -/
theorem browseDays_mem (basepath : String) (bands tiles : List String)
    (startD endD : Date) (days : List DayDir) (recs : List SceneRec)
    (h : browseDays basepath bands tiles startD endD days = .ok recs) :
    (∀ r ∈ recs, ∃ dd ∈ days, inDateRange startD endD dd = true ∧
      ∃ sc ∈ dd.scenes,
        sceneMatches tiles sc.name = true ∧ r.scene = sc.name) ∧
    (∀ dd ∈ days, inDateRange startD endD dd = true →
      ∀ sc ∈ dd.scenes, sceneMatches tiles sc.name = true →
        ∃ r ∈ recs, r.scene = sc.name) := by
  induction days generalizing recs with
  | nil =>
      simp only [browseDays, Except.ok.injEq] at h
      subst h
      simp
  | cons dd rest ih =>
      simp only [browseDays] at h
      cases hday : browseDay basepath bands tiles startD endD dd with
      | error e => rw [hday] at h; exact absurd h (by simp)
      | ok rs =>
          rw [hday] at h
          cases hrest : browseDays basepath bands tiles startD endD rest with
          | error e => rw [hrest] at h; exact absurd h (by simp)
          | ok rest' =>
              rw [hrest] at h
              injection h with h'
              subst h'
              obtain ⟨fwd, bwd⟩ := ih rest' hrest
              constructor
              · intro r hr
                rcases List.mem_append.mp hr with hleft | hright
                · by_cases hrange : inDateRange startD endD dd = true
                  · unfold browseDay at hday
                    rw [if_pos hrange] at hday
                    obtain ⟨sfwd, _⟩ := browseScenes_mem _ _ _ _ _ hday
                    obtain ⟨sc, hsc, hm, hn⟩ := sfwd r hleft
                    exact ⟨dd, List.mem_cons_self _ _, hrange,
                      sc, hsc, hm, hn⟩
                  · unfold browseDay at hday
                    rw [if_neg hrange] at hday
                    injection hday with hday'
                    subst hday'
                    exact absurd hleft (List.not_mem_nil r)
                · obtain ⟨dd', hdd', hrange', hrest''⟩ := fwd r hright
                  exact ⟨dd', List.mem_cons_of_mem _ hdd', hrange',
                    hrest''⟩
              · intro dd' hdd' hrange' sc hsc hm
                rcases List.mem_cons.mp hdd' with rfl | htail
                · unfold browseDay at hday
                  rw [if_pos hrange'] at hday
                  obtain ⟨_, sbwd⟩ := browseScenes_mem _ _ _ _ _ hday
                  obtain ⟨r, hr, hn⟩ := sbwd sc hsc hm
                  exact ⟨r, List.mem_append_left _ hr, hn⟩
                · obtain ⟨r, hr, hn⟩ := bwd dd' htail hrange' sc hsc hm
                  exact ⟨r, List.mem_append_right _ hr, hn⟩

/-- Blanking the contents of non-matching scene directories does not
change the per-day scene pass. -/
theorem browseScenes_prune (bands tiles : List String) (dayPath : String)
    (scenes : List SceneDir) :
    browseScenes bands tiles dayPath (scenes.map (pruneScene tiles)) =
      browseScenes bands tiles dayPath scenes := by
  induction scenes with
  | nil => rfl
  | cons sc rest ih =>
      by_cases hm : sceneMatches tiles sc.name = true
      · have hps : pruneScene tiles sc = sc := by
          unfold pruneScene
          rw [if_pos hm]
        simp only [List.map_cons, hps, browseScenes, hm, if_true,
          reduceIte, ih]
      · have hname : (pruneScene tiles sc).name = sc.name := by
          unfold pruneScene
          by_cases h : sceneMatches tiles sc.name = true
        -- both branches of pruneScene keep the name
          · rw [if_pos h]
          · rw [if_neg h]
        simp only [List.map_cons, browseScenes, hname, hm, if_false,
          reduceIte, ih]
        rfl

/-- C2 locality half: pruning out-of-range days and non-matching scene
contents leaves the whole traversal unchanged (those parts are never
inspected). -/
theorem browseDays_prune (basepath : String) (bands tiles : List String)
    (startD endD : Date) (days : List DayDir) :
    browseDays basepath bands tiles startD endD
        (days.map (pruneDay tiles startD endD)) =
      browseDays basepath bands tiles startD endD days := by
  induction days with
  | nil => rfl
  | cons dd rest ih =>
      have hday : browseDay basepath bands tiles startD endD
          (pruneDay tiles startD endD dd) =
          browseDay basepath bands tiles startD endD dd := by
        by_cases hr : inDateRange startD endD dd = true
        · unfold pruneDay
          rw [if_pos hr]
          unfold browseDay
          rw [if_pos (show inDateRange startD endD
              { dd with scenes := dd.scenes.map (pruneScene tiles) } = true
              from hr),
            if_pos hr]
          exact browseScenes_prune bands tiles _ dd.scenes
        · unfold pruneDay
          rw [if_neg hr]
          unfold browseDay
          rw [if_neg (show ¬ inDateRange startD endD
              { dd with scenes := ([] : List SceneDir) } = true from hr),
            if_neg hr]
      simp only [List.map_cons, browseDays, hday, ih]

/-- C2: in a successful browse, every manifest record stems from a scene
directory of an in-range day whose name contains a resolved tile id;
conversely every such scene directory yields a record; and blanking the
scene lists of out-of-range days and the contents of non-matching scene
directories leaves the result unchanged (they are never inspected). -/
theorem scene_manifest_membership (basepath : String)
    (bands tiles : List String) (startD endD : Date) (days : List DayDir)
    (recs : List SceneRec)
    (h : browseDays basepath bands tiles startD endD days = .ok recs) :
    (∀ r ∈ recs, ∃ dd ∈ days, inDateRange startD endD dd = true ∧
      ∃ sc ∈ dd.scenes,
        sceneMatches tiles sc.name = true ∧ r.scene = sc.name) ∧
    (∀ dd ∈ days, inDateRange startD endD dd = true →
      ∀ sc ∈ dd.scenes, sceneMatches tiles sc.name = true →
        ∃ r ∈ recs, r.scene = sc.name) ∧
    browseDays basepath bands tiles startD endD
        (days.map (pruneDay tiles startD endD)) = .ok recs := by
  obtain ⟨fwd, bwd⟩ := browseDays_mem basepath bands tiles startD endD
    days recs h
  refine ⟨fwd, bwd, ?_⟩
  rw [browseDays_prune]
  exact h

/-- C2 witness: on a one-day, one-scene archive the matching scene
produces a record. -/
theorem scene_manifest_membership_witness :
    ∃ r ∈ [sampleRec], r.scene = sampleScene.name :=
  (scene_manifest_membership (collectionBasepath "/codede") ["S2_B8"]
      ["32ULB"] ⟨2022, 7, 1⟩ ⟨2022, 7, 15⟩ [sampleDay] [sampleRec]
      (by rfl)).2.1
    sampleDay (List.mem_cons_self _ _) (by decide)
    sampleScene (List.mem_cons_self _ _) (by decide)

/-- C7 counterexample: a successful end-to-end run reaches the stages in
the order validate, browse, negotiate, importBands, createStrds,
registerMaps — so resource negotiation has NOT completed before archive
browsing starts (it is not among the stages preceding the browsing
stage), contrary to the claim. -/
theorem stage_ordering_counterexample :
    (mainModel "2022-07-01" "2022-07-15" ⟨2026, 10, 12⟩ "/codede"
        ["32ULB"] ["S2_B8"] [sampleDay] 4 (-2) 300 (1024 ^ 3) 0
        silentOracle).1 =
      [.validate, .browseStep, .negotiate, .importBands, .createStrds,
       .registerMaps] ∧
    MainStep.negotiate ∉
      ((mainModel "2022-07-01" "2022-07-15" ⟨2026, 10, 12⟩ "/codede"
          ["32ULB"] ["S2_B8"] [sampleDay] 4 (-2) 300 (1024 ^ 3) 0
          silentOracle).1.takeWhile
        (fun st => st != MainStep.browseStep)) := by
  constructor
  · rfl
  · decide

/-- C7 amended: date validation is always the first stage; the browsing
pass precedes resource negotiation, which precedes importing and container
creation; an empty scene manifest aborts the run fatally with the
no-scenes message right after the browsing pass, before negotiation, and
before any import task or container creation; when the negotiated core
count is zero (a 1-core host with the default -2 request) the run crashes
with the uncaught division-by-zero error right after negotiation, still
before any import task or container creation. -/
theorem stage_ordering (start endS : String) (todayD : Date)
    (mountpoint : String) (tiles bands : List String) (days : List DayDir)
    (availCores : Nat) (reqNprocs : Int)
    (reqMemory memAvailable swapFree : Nat) (oracle : ImportTask → String)
    (tr : List MainStep) (res : Except String MainOutput)
    (h : mainModel start endS todayD mountpoint tiles bands days availCores
      reqNprocs reqMemory memAvailable swapFree oracle = (tr, res)) :
    strContains noScenesMsg
      "No scenes matching the spatial and temporal filter found." = true ∧
    ((tr = [.validate] ∧ ∃ e, res = .error e) ∨
     (tr = [.validate, .browseStep] ∧ ∃ e, res = .error e) ∨
     (tr = [.validate, .browseStep, .emptyAbort] ∧
       res = .error noScenesMsg) ∨
     (tr = [.validate, .browseStep, .negotiate] ∧
       res = .error "ZeroDivisionError: division by zero" ∧
       (testNprocsMemory availCores reqNprocs reqMemory memAvailable
         swapFree).nprocs = 0) ∨
     (tr = [.validate, .browseStep, .negotiate, .importBands, .createStrds,
        .registerMaps] ∧ ∃ o, res = .ok o)) := by
  refine ⟨by decide, ?_⟩
  unfold mainModel at h
  cases hc : checkStartEnd start endS todayD with
  | error e =>
      rw [hc] at h
      simp only [Prod.mk.injEq] at h
      obtain ⟨rfl, rfl⟩ := h
      exact Or.inl ⟨rfl, e, rfl⟩
  | ok se =>
      rw [hc] at h
      dsimp only at h
      cases hb : browseDays (collectionBasepath mountpoint) bands tiles
          se.1 se.2 days with
      | error e =>
          rw [hb] at h
          simp only [Prod.mk.injEq] at h
          obtain ⟨rfl, rfl⟩ := h
          exact Or.inr (Or.inl ⟨rfl, e, rfl⟩)
      | ok scenes =>
          rw [hb] at h
          dsimp only at h
          by_cases hl : (scenes.length == 0) = true
          · rw [if_pos hl] at h
            simp only [Prod.mk.injEq] at h
            obtain ⟨rfl, rfl⟩ := h
            exact Or.inr (Or.inr (Or.inl ⟨rfl, rfl⟩))
          · rw [if_neg hl] at h
            by_cases hz : ((testNprocsMemory availCores reqNprocs reqMemory
                memAvailable swapFree).nprocs == 0) = true
            · rw [if_pos hz] at h
              simp only [Prod.mk.injEq] at h
              obtain ⟨rfl, rfl⟩ := h
              exact Or.inr (Or.inr (Or.inr (Or.inl
                ⟨rfl, rfl, by simpa using hz⟩)))
            · rw [if_neg hz] at h
              simp only [Prod.mk.injEq] at h
              obtain ⟨rfl, rfl⟩ := h
              exact Or.inr (Or.inr (Or.inr (Or.inr ⟨rfl, _, rfl⟩)))

/-- C7 amended witness: a 1-core host with the default -2 core request and
a nonempty archive crashes with the division-by-zero error right after
negotiation, before any import or container stage. -/
theorem stage_ordering_witness :
    strContains noScenesMsg
      "No scenes matching the spatial and temporal filter found." = true ∧
    (([MainStep.validate, MainStep.browseStep, MainStep.negotiate] =
        [MainStep.validate] ∧
        ∃ e, (Except.error "ZeroDivisionError: division by zero" :
          Except String MainOutput) = .error e) ∨
     ([MainStep.validate, MainStep.browseStep, MainStep.negotiate] =
        [MainStep.validate, MainStep.browseStep] ∧
        ∃ e, (Except.error "ZeroDivisionError: division by zero" :
          Except String MainOutput) = .error e) ∨
     ([MainStep.validate, MainStep.browseStep, MainStep.negotiate] =
        [MainStep.validate, MainStep.browseStep, MainStep.emptyAbort] ∧
        (Except.error "ZeroDivisionError: division by zero" :
          Except String MainOutput) = .error noScenesMsg) ∨
     ([MainStep.validate, MainStep.browseStep, MainStep.negotiate] =
        [MainStep.validate, MainStep.browseStep, MainStep.negotiate] ∧
        (Except.error "ZeroDivisionError: division by zero" :
          Except String MainOutput) =
          .error "ZeroDivisionError: division by zero" ∧
        (testNprocsMemory 1 (-2) 300 (1024 ^ 3) 0).nprocs = 0) ∨
     ([MainStep.validate, MainStep.browseStep, MainStep.negotiate] =
        [MainStep.validate, MainStep.browseStep, MainStep.negotiate,
         MainStep.importBands, MainStep.createStrds,
         MainStep.registerMaps] ∧
        ∃ o, (Except.error "ZeroDivisionError: division by zero" :
          Except String MainOutput) = .ok o)) :=
  stage_ordering "2022-07-01" "2022-07-15" ⟨2026, 10, 12⟩ "/codede"
    ["32ULB"] ["S2_B8"] [sampleDay] 1 (-2) 300 (1024 ^ 3) 0 silentOracle
    [.validate, .browseStep, .negotiate]
    (.error "ZeroDivisionError: division by zero") (by rfl)

end TInEOArchive
